import Mathlib

/-!
Verification of the DataDetective repository's paginated-fetch and
natural-language filter pipeline (src/nocodb_ui.py and
src/nocodb__tkinter_ui.py).

Modelling conventions for the shallow embedding:
* Python strings are modelled as `List Char`; `s.count(c)` is `List.count`,
  `s.strip()` is `pyStrip`, and the Python substring test `a in b` is
  `containsSub`.
* A Record (one JSON row) is an association list from field names to scalar
  `Value`s; a pandas DataFrame of records is a `Table` (`List Record`), kept
  in fetch order.
* External facilities the source calls (the HTTP server, `eval`,
  `ast.literal_eval`, the OpenAI chat completion) are parameters of the
  embedded functions: the control flow around them is transcribed from the
  source, while their behaviour is an explicit oracle argument.
* A Python exception that escapes a function is an `Except.error`; a caught
  exception is reflected in the transcribed `try`/`except` branch structure.
-/

/-- A scalar cell value of a record (string, number, or null). -/
inductive Value
  | str (s : String)
  | num (n : Int)
  | null
deriving DecidableEq, Repr

/-- One row of the remote table: field name to value. -/
abbrev Record := List (String × Value)

/-- A DataFrame of records, in fetch order. -/
abbrev Table := List Record

/-- The outcome of one `requests.get` + `raise_for_status` + `.json()` round
trip for a single page, as seen by `fetch_nocodb_data`:
* `ok records` — a 2xx response whose JSON `"list"` field holds `records`;
* `httpError` — `raise_for_status` raised `requests.exceptions.HTTPError`
  (non-2xx status), which the source catches;
* `transportError` — any other exception of the attempt (e.g.
  `requests.exceptions.ConnectionError`, a timeout, or a JSON decode error),
  none of which are subclasses of `HTTPError` and hence are not caught by the
  `except requests.exceptions.HTTPError` clause in the source. -/
inductive PageResult
  | ok (records : List Record)
  | httpError
  | transportError
deriving DecidableEq, Repr

/-- The `while True` pagination loop of `fetch_nocodb_data`
(src/nocodb_ui.py lines 69-83; identical in src/nocodb__tkinter_ui.py lines
128-148).  `pages` lists the server's responses to
`?page=1&limit=100`, `?page=2&limit=100`, … in order; a request past the end
of the list is a page the server answers with an empty record list, so the
`[]` case mirrors the `if not data: break` branch.  `acc` is `all_records`.
`Except.error ()` models an exception escaping the function uncaught. -/
def fetchGo (limit : Nat) (acc : List Record) :
    List PageResult → Except Unit (List Record)
  | [] => Except.ok acc
  | PageResult.transportError :: _ => Except.error ()
  | PageResult.httpError :: _ => Except.ok []
  | PageResult.ok data :: rest =>
    if data = [] then Except.ok acc
    else if data.length < limit then Except.ok (acc ++ data)
    else fetchGo limit (acc ++ data) rest

/-- `fetch_nocodb_data` (src/nocodb_ui.py lines 62-84): page size 100,
starting at page 1 with no accumulated records.  The final
`pd.DataFrame(all_records) if all_records else pd.DataFrame()` maps the
accumulated record list to a Table, which is the identity in this model
(an empty list is the empty Table). -/
def fetch_nocodb_data (pages : List PageResult) : Except Unit (List Record) :=
  fetchGo 100 [] pages

/-- `balance_parentheses` (src/nocodb_ui.py lines 13-19): count `'('` and
`')'` and append the missing closing parentheses when there are more opening
than closing ones. -/
def balance_parentheses (s : List Char) : List Char :=
  let open_parens := s.count '('
  let close_parens := s.count ')'
  if open_parens > close_parens then
    s ++ List.replicate (open_parens - close_parens) ')'
  else s

/-- `apply_filter_code` (src/nocodb_ui.py lines 142-168) with the Python
`eval` of the filter-code string under the restricted namespace abstracted as
the oracle `evalExpr` (`none` models `eval` raising an exception).  The
`try`/`except` structure is transcribed: evaluate `filter_code`; on failure
evaluate `balance_parentheses filter_code` once; on a second failure report
the error and return the input `df`. -/
def apply_filter_code (evalExpr : List Char → Table → Option Table)
    (df : Table) (filter_code : List Char) : Table :=
  match evalExpr filter_code df with
  | some filtered_df => filtered_df
  | none =>
    match evalExpr (balance_parentheses filter_code) df with
    | some filtered_df => filtered_df
    | none => df

/-- A Python value an evaluated filter expression can produce: a table, or
Python `None` (e.g. the result of an `inplace=True` method call). -/
inductive PyVal
  | table (t : Table)
  | pyNone
deriving DecidableEq, Repr

/-- `apply_filter_code` again, with the state of the `df` object made
explicit: the oracle returns the optional result of `eval` (first component,
`none` = exception) together with the state of the table object after the
evaluation, since `eval` under the source's restricted namespace can still
run mutating attribute calls such as `df.drop(..., inplace=True)`.  The
second component of the result is the final state of the caller's table
object. -/
def apply_filter_code_mut
    (evalExpr : List Char → Table → Option PyVal × Table)
    (df : Table) (filter_code : List Char) : PyVal × Table :=
  match evalExpr filter_code df with
  | (some filtered_df, df1) => (filtered_df, df1)
  | (none, df1) =>
    match evalExpr (balance_parentheses filter_code) df1 with
    | (some filtered_df, df2) => (filtered_df, df2)
    | (none, df2) => (PyVal.table df2, df2)

/-- Python substring containment `pat in s` on strings, as a boolean on
character lists. -/
def containsSub (pat : List Char) : List Char → Bool
  | [] => pat.isEmpty
  | c :: rest => pat.isPrefixOf (c :: rest) || containsSub pat rest

/-- Python `s.strip()`: drop whitespace from both ends. -/
def pyStrip (s : List Char) : List Char :=
  ((s.dropWhile Char.isWhitespace).reverse.dropWhile Char.isWhitespace).reverse

/-- Python `k in result` for the parsed response object, modelled as key
membership in an association list. -/
def hasKey (result : List (String × List Char)) (k : String) : Bool :=
  result.any (fun kv => kv.1 == k)

/-- `convert_nl_to_query` (src/nocodb_ui.py lines 89-137).  The oracle `llm`
abstracts prompt construction, the `openai.ChatCompletion.create` call and
the extraction of `response["choices"][0]["message"]["content"]`
(`Except.error ()` = the call raised); `parse` abstracts
`ast.literal_eval` on the stripped content (`none` = it raised), its result
modelled as a key-value mapping.  Every exception in the `try` block is
caught and yields `None`; a parsed object missing `"filter_code"` or
`"reasoning"` also yields `None`. -/
def convert_nl_to_query
    (llm : List Char → List String → Except Unit (List Char))
    (parse : List Char → Option (List (String × List Char)))
    (nl_text : List Char) (df_columns : List String) :
    Option (List (String × List Char)) :=
  if pyStrip nl_text = [] then none
  else
    match llm nl_text df_columns with
    | Except.error _ => none
    | Except.ok content =>
      match parse (pyStrip content) with
      | none => none
      | some result =>
        if hasKey result "filter_code" && hasKey result "reasoning" then
          some result
        else none

/-- `convert_nl_to_query` of the non-fuzzy variant
(src/nocodb__tkinter_ui.py lines 179-216): the stripped model response is
returned as the filter when it contains the substring `"df["`, otherwise the
function returns `None`; an exception of the call yields `None`. -/
def convert_nl_to_query_v2
    (llm : List Char → List String → Except Unit (List Char))
    (nl_text : List Char) (df_columns : List String) : Option (List Char) :=
  if pyStrip nl_text = [] then none
  else
    match llm nl_text df_columns with
    | Except.error _ => none
    | Except.ok content =>
      let structured_filter := pyStrip content
      if containsSub "df[".toList structured_filter then some structured_filter
      else none

/-- A language-model oracle whose call always raises. -/
def errLlm : List Char → List String → Except Unit (List Char) :=
  fun _ _ => Except.error ()

/-- A parse oracle on which `ast.literal_eval` always raises. -/
def noParse : List Char → Option (List (String × List Char)) := fun _ => none

/-- A model response that contains the substring `"df["`. -/
def dfCode : List Char := ['d', 'f', '[', 'x', ']']

/-- A language-model oracle that always answers with `dfCode`. -/
def okLlmDf : List Char → List String → Except Unit (List Char) :=
  fun _ _ => Except.ok dfCode

/-- An evaluation oracle on which every `eval` raises. -/
def failEval : List Char → Table → Option Table := fun _ _ => none

/-- Sample rows and a two-row table used by concrete witnesses. -/
def row1 : Record := [("state", Value.str "CA"), ("amt", Value.num 600)]

def row2 : Record := [("state", Value.str "NY"), ("amt", Value.num 100)]

def tbl2 : Table := [row1, row2]

/-- The Python expression `df.iloc[::-1]`: evaluable under the source's
restricted namespace (no builtins needed) and returning the row-reversed
frame. -/
def revCode : List Char := "df.iloc[::-1]".toList

/-- Oracle recording what Python `eval` does on `revCode`: it succeeds and
returns the table with its rows reversed. -/
def revEval : List Char → Table → Option Table :=
  fun c t => if c = revCode then some t.reverse else none

/-- The Python expression `df.drop(df.index, inplace=True)`: evaluable under
the restricted namespace, returns `None`, and empties the frame in place. -/
def dropCode : List Char := "df.drop(df.index, inplace=True)".toList

/-- Oracle recording what Python `eval` does on `dropCode`: the evaluation
succeeds with value `None` and leaves the table object empty. -/
def dropEval : List Char → Table → Option PyVal × Table :=
  fun c t => if c = dropCode then (some PyVal.pyNone, []) else (none, t)

/-- An evaluation oracle that never mutates the table object and on which
every `eval` raises. -/
def idEval : List Char → Table → Option PyVal × Table := fun _ t => (none, t)

-- ---------------------------------------------------------------------
-- Helper lemmas
-- ---------------------------------------------------------------------

/-- Running the pagination loop through a block of full pages (each of
exactly `limit > 0` records) accumulates their records and continues with
the remaining responses. -/
theorem fetchGo_cons_ok (limit : Nat) (acc data : List Record)
    (rest : List PageResult) :
    fetchGo limit acc (PageResult.ok data :: rest) =
      (if data = [] then Except.ok acc
       else if data.length < limit then Except.ok (acc ++ data)
       else fetchGo limit (acc ++ data) rest) := rfl

/-- Running the pagination loop through a block of full pages (each of
exactly `limit > 0` records) accumulates their records and continues with
the remaining responses. -/
theorem fetchGo_full_block (limit : Nat) (hlim : 0 < limit)
    (full : List (List Record)) (hfull : ∀ p ∈ full, p.length = limit)
    (acc : List Record) (tail : List PageResult) :
    fetchGo limit acc (full.map PageResult.ok ++ tail) =
      fetchGo limit (acc ++ full.flatten) tail := by
  induction full generalizing acc with
  | nil => simp
  | cons p ps ih =>
    have hp : p.length = limit := hfull p (by simp)
    have hne : p ≠ [] := by
      intro h
      rw [h] at hp
      simp at hp
      omega
    have hlt : ¬ p.length < limit := by omega
    rw [List.map_cons, List.cons_append, fetchGo_cons_ok, if_neg hne,
      if_neg hlt, ih (fun q hq => hfull q (List.mem_cons_of_mem p hq))]
    simp [List.append_assoc]

-- ---------------------------------------------------------------------
-- C8 / C9: balance_parentheses
-- ---------------------------------------------------------------------

/-- C8: for every string `s`,
`balance_parentheses (balance_parentheses s) = balance_parentheses s` —
the repair function is idempotent. -/
theorem c8_balance_idempotent (s : List Char) :
    balance_parentheses (balance_parentheses s) = balance_parentheses s := by
  unfold balance_parentheses
  by_cases h : s.count '(' > s.count ')'
  · have hle : s.count ')' ≤ s.count '(' := Nat.le_of_lt h
    simp only [h, if_true]
    have hopen :
        (s ++ List.replicate (s.count '(' - s.count ')') ')').count '(' =
          s.count '(' := by
      simp [List.count_append, List.count_replicate]
    have hclose :
        (s ++ List.replicate (s.count '(' - s.count ')') ')').count ')' =
          s.count '(' := by
      simp [List.count_append, List.count_replicate,
        Nat.add_sub_cancel' hle]
    rw [hopen, hclose]
    simp
  · simp [h]

/-- C9: `balance_parentheses s` equals `s` followed by exactly
`max 0 (count '(' - count ')')` closing parentheses (truncated natural
subtraction); hence `s` is a prefix, only `')'` is ever appended, the string
is unchanged when it has at least as many `')'` as `'('`, and the square
bracket counts are untouched. -/
theorem c9_balance_spec (s : List Char) :
    balance_parentheses s =
        s ++ List.replicate (s.count '(' - s.count ')') ')' ∧
      (s.count '(' ≤ s.count ')' → balance_parentheses s = s) ∧
      (balance_parentheses s).count '[' = s.count '[' ∧
      (balance_parentheses s).count ']' = s.count ']' := by
  have hmain : balance_parentheses s =
      s ++ List.replicate (s.count '(' - s.count ')') ')' := by
    unfold balance_parentheses
    by_cases h : s.count '(' > s.count ')'
    · simp [h]
    · have h0 : s.count '(' - s.count ')' = 0 := by omega
      simp [h, h0]
  refine ⟨hmain, ?_, ?_, ?_⟩
  · intro hle
    have h0 : s.count '(' - s.count ')' = 0 := by omega
    rw [hmain, h0]
    simp
  · rw [hmain]
    simp [List.count_append, List.count_replicate]
  · rw [hmain]
    simp [List.count_append, List.count_replicate]

/-- Witness for C9 at the concrete inputs `"(a"` and `")"`. -/
theorem c9_balance_spec_witness :
    balance_parentheses ['(', 'a'] = ['(', 'a', ')'] ∧
      balance_parentheses [')'] = [')'] := by
  constructor
  · have h := (c9_balance_spec ['(', 'a']).1
    simpa using h
  · exact (c9_balance_spec [')']).2.1 (by decide)

-- ---------------------------------------------------------------------
-- C1 / C2: fetch_nocodb_data
-- ---------------------------------------------------------------------

/-- C1: for every sequence of response pages consisting of full pages (100
records each) followed by a page with fewer than 100 records (possibly
none), `fetch_nocodb_data` terminates and returns the concatenation of all
requested pages' records in fetch order (pages are requested sequentially,
the list position being the page number); moreover a fetch whose first page
is empty returns the empty Table. -/
theorem c1_fetch_pagination (full : List (List Record)) (last : List Record)
    (hfull : ∀ p ∈ full, p.length = 100) (hlast : last.length < 100) :
    fetch_nocodb_data (full.map PageResult.ok ++ [PageResult.ok last]) =
        Except.ok (full.flatten ++ last) ∧
      ∀ rest : List PageResult,
        fetch_nocodb_data (PageResult.ok [] :: rest) = Except.ok [] := by
  constructor
  · unfold fetch_nocodb_data
    rw [fetchGo_full_block 100 (by omega) full hfull [] [PageResult.ok last]]
    rw [List.nil_append, fetchGo_cons_ok]
    by_cases h : last = []
    · subst h
      simp
    · rw [if_neg h, if_pos hlast]
  · intro rest
    unfold fetch_nocodb_data
    rw [fetchGo_cons_ok]
    simp

/-- Witness for C1: one full page of 100 records followed by a one-record
page yields the 101 records in order. -/
theorem c1_fetch_pagination_witness :
    fetch_nocodb_data
        ([List.replicate 100 row1].map PageResult.ok ++
          [PageResult.ok [row2]]) =
      Except.ok ([List.replicate 100 row1].flatten ++ [row2]) := by
  refine (c1_fetch_pagination [List.replicate 100 row1] [row2] ?_ ?_).1
  · intro p hp
    simp at hp
    subst hp
    simp
  · simp

/-- Counterexample to C2: a transport-level failure on the first page
request (e.g. `requests.exceptions.ConnectionError`) is not caught by the
`except requests.exceptions.HTTPError` clause, so the fetch propagates the
exception instead of returning an empty Table. -/
theorem c2_counterexample :
    fetch_nocodb_data [PageResult.transportError] = Except.error () ∧
      fetch_nocodb_data [PageResult.transportError] ≠ Except.ok [] := by
  refine ⟨rfl, ?_⟩
  intro h
  rw [show fetch_nocodb_data [PageResult.transportError] = Except.error ()
    from rfl] at h
  exact Except.noConfusion h

/-- C2 (amended): if a page request fails with an HTTP-status error after
any run of full pages, `fetch_nocodb_data` catches it and returns an empty
Table — never a partial one; transport-level failures, by contrast,
propagate uncaught (see the counterexample). -/
theorem c2_http_error_empty (full : List (List Record))
    (hfull : ∀ p ∈ full, p.length = 100) (rest : List PageResult) :
    fetch_nocodb_data
        (full.map PageResult.ok ++ PageResult.httpError :: rest) =
      Except.ok [] := by
  unfold fetch_nocodb_data
  rw [fetchGo_full_block 100 (by omega) full hfull []
    (PageResult.httpError :: rest)]
  rfl

/-- Witness for C2 (amended): an HTTP error on the very first page yields
the empty Table. -/
theorem c2_http_error_empty_witness :
    fetch_nocodb_data [PageResult.httpError] = Except.ok [] :=
  c2_http_error_empty [] (by simp) []

-- ---------------------------------------------------------------------
-- C3 / C4 / C5: apply_filter_code
-- ---------------------------------------------------------------------

/-- C3: whenever the first evaluation of the filter code fails,
`apply_filter_code` performs exactly one repair pass (`balance_parentheses`,
which appends the missing closing parentheses) and retries evaluation once;
if that retry also fails it returns the original, unfiltered Table.  The
function is total, so no exception escapes this boundary. -/
theorem c3_repair_retry_fallback
    (evalExpr : List Char → Table → Option Table) (df : Table)
    (filter_code : List Char)
    (hfail : evalExpr filter_code df = none) :
    apply_filter_code evalExpr df filter_code =
      Option.getD (evalExpr (balance_parentheses filter_code) df) df := by
  unfold apply_filter_code
  rw [hfail]
  cases h2 : evalExpr (balance_parentheses filter_code) df <;> simp [h2]

/-- Witness for C3: with an oracle on which every evaluation raises, the
original table comes back. -/
theorem c3_repair_retry_fallback_witness :
    failEval ['a'] tbl2 = none ∧
      apply_filter_code failEval tbl2 ['a'] =
        Option.getD (failEval (balance_parentheses ['a']) tbl2) tbl2 :=
  ⟨rfl, c3_repair_retry_fallback failEval tbl2 ['a'] rfl⟩

/-- Counterexample to C4: the filter code `df.iloc[::-1]` evaluates
successfully under the restricted namespace and returns the rows reversed —
neither an order-preserving subset of the input nor the original Table. -/
theorem c4_counterexample :
    apply_filter_code revEval tbl2 revCode = [row2, row1] ∧
      ¬ List.Sublist [row2, row1] tbl2 ∧ [row2, row1] ≠ tbl2 := by
  refine ⟨rfl, ?_, ?_⟩
  · intro h
    have heq := h.eq_of_length rfl
    simp [tbl2, row1, row2] at heq
  · simp [tbl2, row1, row2]

/-- C4 (amended): provided every successful evaluation of a filter
expression returns an order-preserved row subset (a sublist) of the table it
is given — as row-mask selections `df[mask]` do — `apply_filter_code`
returns a sublist of the input Table, and the original Table itself when
evaluation irrecoverably fails.  Without that proviso the result is whatever
the expression evaluates to (see the counterexample). -/
theorem c4_subset_of_mask_semantics
    (evalExpr : List Char → Table → Option Table) (df : Table)
    (filter_code : List Char)
    (hsub : ∀ c t u, evalExpr c t = some u → List.Sublist u t) :
    List.Sublist (apply_filter_code evalExpr df filter_code) df := by
  unfold apply_filter_code
  cases h1 : evalExpr filter_code df with
  | some t => exact hsub _ _ _ h1
  | none =>
    cases h2 : evalExpr (balance_parentheses filter_code) df with
    | some t => exact hsub _ _ _ h2
    | none => exact List.Sublist.refl df

/-- Witness for C4 (amended) at the all-failing oracle and the sample
table. -/
theorem c4_subset_of_mask_semantics_witness :
    List.Sublist (apply_filter_code failEval tbl2 revCode) tbl2 :=
  c4_subset_of_mask_semantics failEval tbl2 revCode
    (fun c t u h => by simp [failEval] at h)

/-- Counterexample to C5: the filter code
`df.drop(df.index, inplace=True)` evaluates successfully under the
restricted namespace and empties the table object in place, so the input
Table is not structurally equal before and after the call. -/
theorem c5_counterexample :
    (apply_filter_code_mut dropEval tbl2 dropCode).2 = [] ∧
      ([] : Table) ≠ tbl2 := by
  refine ⟨rfl, ?_⟩
  simp [tbl2]

/-- C5 (amended): `apply_filter_code` adds no mutation of its own — whenever
the evaluated expression leaves the table object's state unchanged, the
input Table is structurally equal before and after the call; the restricted
namespace, however, does not prevent the expression itself from mutating the
table (see the counterexample). -/
theorem c5_no_mutation_of_pure_exprs
    (evalExpr : List Char → Table → Option PyVal × Table) (df : Table)
    (filter_code : List Char)
    (hpure : ∀ c t, (evalExpr c t).2 = t) :
    (apply_filter_code_mut evalExpr df filter_code).2 = df := by
  unfold apply_filter_code_mut
  have h1 := hpure filter_code df
  rcases e1 : evalExpr filter_code df with ⟨o1, t1⟩
  rw [e1] at h1
  have ht1 : t1 = df := h1
  cases o1 with
  | some v => exact ht1
  | none =>
    rw [ht1]
    show (match evalExpr (balance_parentheses filter_code) df with
      | (some filtered_df, df2) => (filtered_df, df2)
      | (none, df2) => (PyVal.table df2, df2)).2 = df
    have h2 := hpure (balance_parentheses filter_code) df
    rcases e2 : evalExpr (balance_parentheses filter_code) df with ⟨o2, t2⟩
    rw [e2] at h2
    have ht2 : t2 = df := h2
    cases o2 with
    | some v => exact ht2
    | none => exact ht2

/-- Witness for C5 (amended) at a non-mutating, always-failing oracle. -/
theorem c5_no_mutation_of_pure_exprs_witness :
    (apply_filter_code_mut idEval tbl2 dropCode).2 = tbl2 :=
  c5_no_mutation_of_pure_exprs idEval tbl2 dropCode (fun _ _ => rfl)

-- ---------------------------------------------------------------------
-- C6 / C7 / C10: convert_nl_to_query
-- ---------------------------------------------------------------------

/-- C6: whenever the language-model call fails, or the response cannot be
parsed, or the parsed object is missing the `"filter_code"` or the
`"reasoning"` field, `convert_nl_to_query` returns `none`; likewise the
non-fuzzy variant returns `none` when the model call fails.  Both embedded
functions are total, so no exception escapes this boundary. -/
theorem c6_translation_failures_null
    (llm : List Char → List String → Except Unit (List Char))
    (parse : List Char → Option (List (String × List Char)))
    (nl_text : List Char) (df_columns : List String)
    (h : llm nl_text df_columns = Except.error () ∨
      (∃ c, llm nl_text df_columns = Except.ok c ∧
        parse (pyStrip c) = none) ∨
      (∃ c r, llm nl_text df_columns = Except.ok c ∧
        parse (pyStrip c) = some r ∧
        (hasKey r "filter_code" = false ∨ hasKey r "reasoning" = false))) :
    convert_nl_to_query llm parse nl_text df_columns = none ∧
      (llm nl_text df_columns = Except.error () →
        convert_nl_to_query_v2 llm nl_text df_columns = none) := by
  constructor
  · unfold convert_nl_to_query
    by_cases hb : pyStrip nl_text = []
    · simp [hb]
    · rw [if_neg hb]
      rcases h with h1 | ⟨c, hc, hp⟩ | ⟨c, r, hc, hp, hk⟩
      · rw [h1]
      · rw [hc]
        show (match parse (pyStrip c) with
          | none => none
          | some result =>
            if hasKey result "filter_code" && hasKey result "reasoning" then
              some result
            else none) = none
        rw [hp]
      · rw [hc]
        show (match parse (pyStrip c) with
          | none => none
          | some result =>
            if hasKey result "filter_code" && hasKey result "reasoning" then
              some result
            else none) = none
        rw [hp]
        rcases hk with hk | hk <;> simp [hk]
  · intro h1
    unfold convert_nl_to_query_v2
    by_cases hb : pyStrip nl_text = []
    · simp [hb]
    · rw [if_neg hb, h1]

/-- Witness for C6 at a model oracle whose call always raises. -/
theorem c6_translation_failures_null_witness :
    convert_nl_to_query errLlm noParse ['q'] ["state"] = none ∧
      convert_nl_to_query_v2 errLlm ['q'] ["state"] = none := by
  have h := c6_translation_failures_null errLlm noParse ['q'] ["state"]
    (Or.inl rfl)
  exact ⟨h.1, h.2 rfl⟩

/-- C7: an empty or whitespace-only query string yields `none` in both
variants, for every column list and — the quantification over the `llm` and
`parse` oracles capturing that the service is never contacted — for every
possible behaviour of the external services. -/
theorem c7_blank_query_noop (nl_text : List Char)
    (hblank : pyStrip nl_text = [])
    (llm : List Char → List String → Except Unit (List Char))
    (parse : List Char → Option (List (String × List Char)))
    (df_columns : List String) :
    convert_nl_to_query llm parse nl_text df_columns = none ∧
      convert_nl_to_query_v2 llm nl_text df_columns = none := by
  unfold convert_nl_to_query convert_nl_to_query_v2
  simp [hblank]

/-- Witness for C7 at the one-space query string. -/
theorem c7_blank_query_noop_witness :
    pyStrip [' '] = [] ∧
      convert_nl_to_query errLlm noParse [' '] ["state"] = none ∧
      convert_nl_to_query_v2 errLlm [' '] ["state"] = none := by
  refine ⟨by decide, ?_⟩
  exact c7_blank_query_noop [' '] (by decide) errLlm noParse ["state"]

/-- C10: in the non-fuzzy variant, once the query is non-blank and the model
call succeeds with content `c`, the returned directive is exactly determined
by the single substring test: the stripped response is returned when it
contains `"df["`, and `none` is returned otherwise — no other validation is
applied. -/
theorem c10_df_substring_gate
    (llm : List Char → List String → Except Unit (List Char))
    (nl_text : List Char) (df_columns : List String) (c : List Char)
    (hnl : pyStrip nl_text ≠ [])
    (hok : llm nl_text df_columns = Except.ok c) :
    convert_nl_to_query_v2 llm nl_text df_columns =
      (if containsSub "df[".toList (pyStrip c) then some (pyStrip c)
       else none) := by
  unfold convert_nl_to_query_v2
  rw [if_neg hnl, hok]

/-- Witness for C10: a response containing `"df["` is returned verbatim
(after stripping), and one lacking it yields `none`. -/
theorem c10_df_substring_gate_witness :
    convert_nl_to_query_v2 okLlmDf ['q'] ["x"] = some dfCode ∧
      convert_nl_to_query_v2 errLlm ['q'] ["x"] = none := by
  constructor
  · have h := c10_df_substring_gate okLlmDf ['q'] ["x"] dfCode (by decide) rfl
    rw [h]
    have hs : pyStrip dfCode = dfCode := by decide
    rw [hs]
    rw [if_pos (by decide)]
  · decide
